import Mathlib

set_option maxRecDepth 40000

/-!
Verification of CeRTSearcH (`certsearch.go`).

The program is a single `main` function with two cores:

* a **query builder** (lines 54-149): uppercases the `subjectType` / `sanType`
  selectors, validates all user input, and composes one parameterized SQL
  statement from fixed text fragments, the validated OID, and the SAN type
  number; the free-text search term `q` is only ever passed as parameter `$3`;
* a **scan loop** (lines 170-240): a Go three-clause `for` loop
  `for i := startID; i < endID; i += thisBatchSize` that per iteration
  sleeps, optionally discovers `max(ID)`, sizes a batch, fetches it and logs
  the results.  Note that a Go `continue` statement executes the loop's post
  statement, so every `continue` in the body still performs
  `i += thisBatchSize`.

Everything below is a shallow embedding of that code: Go `int64` becomes
`Int` (no overflow is exercised by any claim), `time.Duration` becomes the
number of seconds, the two database round-trips become per-iteration oracle
inputs (`Option Int` for discovery, `Option (List MatchRecord)` for the
batch query), and process cancellation becomes an explicit event.
-/

/-! ## Generic string machinery -/

/-- Number of occurrences of the two-character substring `[a, b]` in a
character list (used to count the positional parameters `$1`, `$2`, `$3`). -/
def countPair (a b : Char) : List Char → Nat
  | [] => 0
  | [_] => 0
  | x :: y :: rest => (if x = a ∧ y = b then 1 else 0) + countPair a b (y :: rest)

/-- Whether `pat` is an initial segment of `s`. -/
def leadsWith : List Char → List Char → Bool
  | [], _ => true
  | _ :: _, [] => false
  | p :: ps, c :: cs => p == c && leadsWith ps cs

/-- Whether `pat` occurs as a contiguous substring of `s`. -/
def occursIn (pat : List Char) : List Char → Bool
  | [] => leadsWith pat []
  | c :: cs => leadsWith pat (c :: cs) || occursIn pat cs

/-- Substring test on strings. -/
def strOccurs (pat s : String) : Bool := occursIn pat.data s.data

/-! ## The selector alphabet and the OID regular expression -/

/-- A decimal digit, the class `[0-9]` of the Go regexp. -/
def isOidDigit (c : Char) : Bool := '0' ≤ c && c ≤ '9'

/-- A character of the class `[0-9.]` of the Go regexp. -/
def isOidChar (c : Char) : Bool := isOidDigit c || c == '.'

/-- The Go check `regexp.MatchString("^[0-9.]*[0-9]$", s)`: a (possibly
empty) run of digits and dots followed by a final digit. -/
def oidMatch : List Char → Bool
  | [] => false
  | [c] => isOidDigit c
  | c :: rest => isOidChar c && oidMatch rest

/-- `strings.ToUpper`, restricted to the ASCII range that the selector
keywords and OIDs live in (Go applies the Unicode simple case mapping, which
agrees with this on ASCII and is likewise idempotent). -/
def goToUpperChar (c : Char) : Char :=
  if 97 ≤ c.toNat ∧ c.toNat ≤ 122 then Char.ofNat (c.toNat - 32) else c

/-- `strings.ToUpper` on a whole string. -/
def goToUpper (s : String) : String := ⟨s.data.map goToUpperChar⟩

/-! ## Input validation (`certsearch.go` lines 58-91)

The source reports configuration errors with `logrus.Fatal`, which
terminates the process; we model the sequence of checks as a result that is
either fatal (with the logged message) or carries the `sanTypeNum` computed
by the `switch sanType` statement. -/

inductive ValidationResult where
  | ok (sanTypeNum : Int) : ValidationResult
  | fatal (msg : String) : ValidationResult
  deriving DecidableEq, Repr

/-- Lines 58-91 of `certsearch.go`: the `if`/`else if` chain of fatal
checks, the `switch subjectType` OID-shape check, and the `switch sanType`
mapping to a type number.  The selectors arrive here already uppercased
(lines 54-56 are modelled separately by `goToUpper`). -/
def validateInput (q : String) (startID endID batchSize : Int)
    (subjectType sanType : String) : ValidationResult :=
  if q == "" then .fatal "Invalid q"
  else if startID > endID then .fatal "startID must be <= endID"
  else if batchSize > 100000 then .fatal "batchSize must be <=100000"
  else if subjectType == "NONE" && sanType == "NONE" then
    .fatal "subjectType and sanType cannot both be NONE"
  else if !(subjectType == "NONE" || subjectType == "ANY"
            || oidMatch subjectType.data) then
    .fatal "Invalid subjectType"
  else if sanType == "NONE" then .ok (-1)
  else if sanType == "ANY" then .ok (-1)
  else if sanType == "RFC822NAME" then .ok 1
  else if sanType == "DNSNAME" then .ok 2
  else if sanType == "IPADDRESS" then .ok 7
  else .fatal "Invalid sanType"

/-- Whether validation passed (the process survives to build the query). -/
def ValidationResult.accepted : ValidationResult → Bool
  | .ok _ => true
  | .fatal _ => false

/-! ## The query builder (`certsearch.go` lines 93-149)

The fixed text fragments, transcribed byte-for-byte from the Go raw string
literals (the leading tabs of continuation lines are part of the literals). -/

def sqlHead : String := "SELECT c.ID, name.IDENTITY, x509_notAfter(c.CERTIFICATE)\n\tFROM certificate c\n\t\t\tLEFT JOIN LATERAL ("

def sqlSubjSelect : String := "\n\t\t\t\tSELECT encode(x509_nameattributes_raw.RAW_VALUE, 'escape'::text) AS IDENTITY\n\t\t\t\t\tFROM x509_nameattributes_raw(c.CERTIFICATE)"

def sqlSubjWhere : String := "\n\t\t\t\t\tWHERE x509_nameattributes_raw.ATTRIBUTE_OID = '"

def sqlSubjWhereClose : String := "'"

def sqlUnion : String := "\n\t\t\t\tUNION"

def sqlSanSelect : String := "\n\t\t\t\tSELECT encode(x509_altnames_raw.RAW_VALUE, 'escape'::text) AS IDENTITY\n\t\t\t\t\tFROM x509_altnames_raw(c.CERTIFICATE)"

def sqlSanWhere : String := "\n\t\t\t\t\tWHERE x509_altnames_raw.TYPE_NUM = "

def sqlOuterWhere : String := "\n\t\t   ) name ON TRUE\n\tWHERE c.ID BETWEEN $1 AND $2"

def sqlIlike : String := "\n\t\tAND name.IDENTITY ILIKE $3"

def sqlUnexpired : String := "\n\t\tAND x509_notAfter(c.CERTIFICATE) > now() AT TIME ZONE 'UTC'"

def sqlDedup : String := "\n\t\tAND NOT EXISTS (\n\t\t\tSELECT 1\n\t\t\t\tFROM certificate c2\n\t\t\t\tWHERE x509_serialNumber(c2.CERTIFICATE) = x509_serialNumber(c.CERTIFICATE)\n\t\t\t\t\tAND c2.ISSUER_CA_ID = c.ISSUER_CA_ID\n\t\t\t\t\tAND c2.ID < c.ID\n\t\t\t\t\tAND x509_tbscert_strip_ct_ext(c2.CERTIFICATE) = x509_tbscert_strip_ct_ext(c.CERTIFICATE)\n\t\t\t\tLIMIT 1\n\t\t)"

def sqlGroup : String := "\n\t\tGROUP BY c.ID, name.IDENTITY, x509_notAfter(c.CERTIFICATE)"

def sqlOrder : String := "\n\t\tORDER BY c.ID, name.IDENTITY, x509_notAfter(c.CERTIFICATE)"

/-- The search options that shape the SQL statement (`SearchConfig` of the
spec): the free-text pattern `q`, the two (already uppercased) selectors and
the four boolean clause toggles. -/
structure SearchConfig where
  q : String
  subjectType : String
  sanType : String
  unexpiredOnly : Bool
  deduplicate : Bool
  uniq : Bool
  srt : Bool
  deriving DecidableEq, Repr

/-- Lines 94-118 of `certsearch.go`: the initial `query := ...` and the two
selector-dependent `query += ...` blocks (subject branch, optional OID
filter, optional `UNION`, SAN branch, optional `TYPE_NUM` filter).
`sanTypeNum` is the number computed by validation (`-1` for `NONE`/`ANY`,
else `1`/`2`/`7`); the source renders it with `fmt.Sprintf("%d", _)`. -/
def buildFront (cfg : SearchConfig) (sanTypeNum : Int) : String :=
  let query := sqlHead
  let query := if cfg.subjectType != "NONE" then
      query ++ sqlSubjSelect
        ++ (if cfg.subjectType != "ANY" then
              sqlSubjWhere ++ cfg.subjectType ++ sqlSubjWhereClose
            else "")
    else query
  let query := if cfg.sanType != "NONE" then
      query ++ (if cfg.subjectType != "NONE" then sqlUnion else "")
        ++ sqlSanSelect
        ++ (if cfg.sanType != "ANY" then sqlSanWhere ++ toString sanTypeNum
            else "")
    else query
  query

/-- Lines 93-149 of `certsearch.go`: the full sequential `query += ...`
composition (continuing `buildFront` with the outer `WHERE` and the five
optional clauses, in source order). -/
def buildQuery (cfg : SearchConfig) (sanTypeNum : Int) : String :=
  let query := buildFront cfg sanTypeNum
  let query := query ++ sqlOuterWhere
  let query := if cfg.q != "" then query ++ sqlIlike else query
  let query := if cfg.unexpiredOnly then query ++ sqlUnexpired else query
  let query := if cfg.deduplicate then query ++ sqlDedup else query
  let query := if cfg.uniq then query ++ sqlGroup else query
  let query := if cfg.srt then query ++ sqlOrder else query
  query

/-- The front end of `main` as far as the query text is concerned
(lines 54-149): uppercase the selectors, validate, build.  `none` models a
`logrus.Fatal` exit, `some stmt` the statement every later batch query
executes. -/
def mainPipeline (q : String) (startID endID batchSize : Int)
    (subjectType sanType : String)
    (unexpiredOnly deduplicate uniq srt : Bool) : Option String :=
  let subjectType := goToUpper subjectType
  let sanType := goToUpper sanType
  match validateInput q startID endID batchSize subjectType sanType with
  | .ok n => some (buildQuery ⟨q, subjectType, sanType, unexpiredOnly, deduplicate, uniq, srt⟩ n)
  | .fatal _ => none

/-- The characters the last six `query += ...` steps of `buildQuery` append
(the outer `WHERE` plus the conditional `ILIKE` and option clauses): this
part is the same for every selector shape. -/
def tailChars (q : String) (u d g o : Bool) : List Char :=
  sqlOuterWhere.data ++ ((if q != "" then sqlIlike.data else []) ++
    ((if u then sqlUnexpired.data else []) ++
      ((if d then sqlDedup.data else []) ++
        ((if g then sqlGroup.data else []) ++
          (if o then sqlOrder.data else [])))))

/-! ## The scan loop (`certsearch.go` lines 170-240)

One matched row, as scanned at lines 227-236.  Its `notAfter` timestamp is
opaque to every claim, so it is an `Int` (seconds). -/

structure MatchRecord where
  certificateID : Int
  dNSName : String
  notAfter : Int
  deriving DecidableEq, Repr

/-- The row-processing loop at lines 226-237: each row is scanned and logged
("Record found"); the counter variable `n` declared at line 226 is threaded
through but the loop body never modifies it, exactly as in the source.
Returns the emitted records and the final value of `n`. -/
def processRows : List MatchRecord → List MatchRecord × Int
  | [] => ([], 0)
  | r :: rest =>
      let p := processRows rest
      (r :: p.1, p.2)

/-- The configuration the loop reads: the three `int64` flags. -/
structure LoopConfig where
  startID : Int
  endID : Int
  batchSize : Int
  deriving DecidableEq, Repr

/-- The mutable variables of `main` that drive the loop: the loop variable
`i` (the cursor), `maxCertificateID` (`-1` until first discovered),
`thisBatchSize` (declared outside the loop, so it persists across
iterations), `sleepFor` (seconds; `time.Second * 15` or `0`) and the
reassignable `startID`. -/
structure LoopState where
  i : Int
  maxCertificateID : Int
  thisBatchSize : Int
  sleepFor : Int
  startID : Int
  deriving DecidableEq, Repr

/-- The state of `main` when the loop is first entered (lines 171-175). -/
def initState (cfg : LoopConfig) : LoopState :=
  { i := cfg.startID, maxCertificateID := -1, thisBatchSize := 0,
    sleepFor := 0, startID := cfg.startID }

/-- How one iteration of the loop body ended. -/
inductive IterOutcome where
  | discFail
  | noData
  | fetchFail
  | fetched
  deriving DecidableEq, Repr

/-- The externally observable effects of one iteration: the throttle that
was waited at entry, whether a `max(ID)` discovery query was attempted, the
`($1, $2)` bounds of the batch query if one was issued, the emitted
records, the `(first, last, count)` fields of the "Batch end" log line if
one was produced, and how the iteration ended. -/
structure IterEffects where
  slept : Int
  discQuery : Bool
  batchQuery : Option (Int × Int)
  emitted : List MatchRecord
  batchLog : Option (Int × Int × Int)
  outcome : IterOutcome
  deriving DecidableEq, Repr

/-- Lines 217-239: issue the batch query with parameters
`(i, i+thisBatchSize-1, q)`; on failure log and `continue` (which runs the
post statement `i += thisBatchSize`); on success process the rows, then the
post statement advances `i`. -/
def fetchStep (st : LoopState) (slept : Int) (dq : Bool)
    (batch : Option (List MatchRecord)) : LoopState × IterEffects :=
  let first := st.i
  let last := st.i + st.thisBatchSize - 1
  match batch with
  | none =>
      ({ st with i := st.i + st.thisBatchSize },
       ⟨slept, dq, some (first, last), [], none, .fetchFail⟩)
  | some rows =>
      let p := processRows rows
      ({ st with i := st.i + st.thisBatchSize },
       ⟨slept, dq, some (first, last), p.1, some (first, last, p.2), .fetched⟩)

/-- Lines 207-213: range sizing.  `thisBatchSize := maxCertificateID - i + 1`;
if that is `>= batchSize` it is clamped to `batchSize` and the next sleep is
cancelled; if it is `<= 0` the iteration ends with `continue`, whose post
statement still performs `i += thisBatchSize`. -/
def sizeStep (cfg : LoopConfig) (st : LoopState) (slept : Int) (dq : Bool)
    (batch : Option (List MatchRecord)) : LoopState × IterEffects :=
  let tbs := st.maxCertificateID - st.i + 1
  if tbs ≥ cfg.batchSize then
    fetchStep { st with thisBatchSize := cfg.batchSize, sleepFor := 0 } slept dq batch
  else if tbs ≤ 0 then
    ({ st with thisBatchSize := tbs, i := st.i + tbs },
     ⟨slept, dq, none, [], none, .noData⟩)
  else
    fetchStep { st with thisBatchSize := tbs } slept dq batch

/-- One non-cancelled iteration of the loop body (lines 176-239 plus the
loop's post statement `i += thisBatchSize`).  `disc` answers the
`SELECT max(ID)` query (`none` = query error) when one is issued; `batch`
answers the batch query (`none` = query error) when one is issued. -/
def iterate (cfg : LoopConfig) (st : LoopState) (disc : Option Int)
    (batch : Option (List MatchRecord)) : LoopState × IterEffects :=
  let slept := st.sleepFor
  let st := { st with sleepFor := 15 }
  if st.maxCertificateID ≤ st.i then
    match disc with
    | none =>
        ({ st with i := st.i + st.thisBatchSize },
         ⟨slept, true, none, [], none, .discFail⟩)
    | some m =>
        let st := { st with maxCertificateID := m }
        let st := if st.i == -1 then { st with startID := m + 1, i := m + 1 } else st
        let st := if st.maxCertificateID > cfg.endID then
            { st with maxCertificateID := cfg.endID } else st
        sizeStep cfg st slept true batch
  else
    sizeStep cfg st slept false batch

/-- One unit of external input to an iteration: either the cancellation
signal wins the `select` at lines 180-185, or the iteration runs with the
given oracle answers. -/
inductive Event where
  | cancel
  | step (disc : Option Int) (batch : Option (List MatchRecord))
  deriving DecidableEq, Repr

/-- How a (finite prefix of a) run ended. -/
inductive RunOutcome where
  | completed
  | stopped
  | outOfEvents
  deriving DecidableEq, Repr

/-- The loop driver `for i := startID; i < endID; i += thisBatchSize`:
the condition is tested before every iteration (including the first); a
`cancel` event is the `ctx.Done()` arm winning, i.e. `break for_loop`.
Returns the per-iteration effects in order, the final state and how the
run ended (`outOfEvents` when the supplied oracle trace ran out first). -/
def run (cfg : LoopConfig) (st : LoopState) :
    List Event → List IterEffects × LoopState × RunOutcome
  | [] =>
      if st.i < cfg.endID then ([], st, .outOfEvents) else ([], st, .completed)
  | e :: es =>
      if st.i < cfg.endID then
        match e with
        | .cancel => ([], st, .stopped)
        | .step disc batch =>
            let r := iterate cfg st disc batch
            let rest := run cfg r.1 es
            (r.2 :: rest.1, rest.2)
      else ([], st, .completed)

/-! ## Counting lemmas -/

theorem countPair_cons_cons (a b x y : Char) (t : List Char) :
    countPair a b (x :: y :: t) = (if x = a ∧ y = b then 1 else 0) + countPair a b (y :: t) := rfl

/-- If the left part of a concatenation contains no `a` at all, then no
occurrence of the pair `[a, b]` can start in it. -/
theorem countPair_append_of_left_clean (a b : Char) (l₁ l₂ : List Char)
    (h : ∀ c ∈ l₁, c ≠ a) :
    countPair a b (l₁ ++ l₂) = countPair a b l₂ := by
  induction l₁ with
  | nil => rfl
  | cons c t ih =>
    have hc : c ≠ a := h c (List.mem_cons_self c t)
    have ht : ∀ x ∈ t, x ≠ a := fun x hx => h x (List.mem_cons_of_mem c hx)
    cases t with
    | nil =>
      cases l₂ with
      | nil => rfl
      | cons d t₂ =>
        simp only [List.cons_append, List.nil_append, countPair_cons_cons]
        simp [hc]
    | cons c₂ t' =>
      have := ih ht
      simp only [List.cons_append] at this ⊢
      rw [countPair_cons_cons, this]
      simp [hc]

/-- All characters of a string matching the OID regexp are digits or dots. -/
theorem oidMatch_chars : ∀ l : List Char, oidMatch l = true → ∀ c ∈ l, isOidChar c = true := by
  intro l
  induction l with
  | nil => intro h; cases h
  | cons c t ih =>
    intro h d hd
    cases t with
    | nil =>
      simp only [oidMatch] at h
      rcases List.mem_singleton.mp hd with rfl
      simp [isOidChar, h]
    | cons c₂ t' =>
      simp only [oidMatch, Bool.and_eq_true] at h
      rcases List.mem_cons.mp hd with rfl | hd'
      · exact h.1
      · exact ih h.2 d hd'

theorem isOidChar_ne_dollar (c : Char) (h : isOidChar c = true) : c ≠ '$' := by
  intro he
  rw [he] at h
  exact absurd h (by decide)

theorem tailChars_count_one (q : String) (u d g o : Bool) (hq : q ≠ "") :
    countPair '$' '1' (tailChars q u d g o) = 1 := by
  simp only [tailChars, bne_iff_ne, ne_eq, hq, not_false_eq_true, if_true]
  cases u <;> cases d <;> cases g <;> cases o <;> decide

theorem tailChars_count_two (q : String) (u d g o : Bool) (hq : q ≠ "") :
    countPair '$' '2' (tailChars q u d g o) = 1 := by
  simp only [tailChars, bne_iff_ne, ne_eq, hq, not_false_eq_true, if_true]
  cases u <;> cases d <;> cases g <;> cases o <;> decide

theorem tailChars_count_three (q : String) (u d g o : Bool) (hq : q ≠ "") :
    countPair '$' '3' (tailChars q u d g o) = 1 := by
  simp only [tailChars, bne_iff_ne, ne_eq, hq, not_false_eq_true, if_true]
  cases u <;> cases d <;> cases g <;> cases o <;> decide

theorem tailChars_dollar_count (q : String) (u d g o : Bool) (hq : q ≠ "") :
    (tailChars q u d g o).count '$' = 3 := by
  simp only [tailChars, bne_iff_ne, ne_eq, hq, not_false_eq_true, if_true]
  cases u <;> cases d <;> cases g <;> cases o <;> decide

theorem countPair_cons_le (a b c : Char) (l : List Char) :
    countPair a b l ≤ countPair a b (c :: l) := by
  cases l with
  | nil => exact Nat.le_refl 0
  | cons d t =>
    rw [countPair_cons_cons]
    exact Nat.le_add_left _ _

theorem countPair_le_append_right (a b : Char) (l₁ l₂ : List Char) :
    countPair a b l₂ ≤ countPair a b (l₁ ++ l₂) := by
  induction l₁ with
  | nil => exact Nat.le_refl _
  | cons c t ih => exact le_trans ih (countPair_cons_le a b c (t ++ l₂))

/-- Occurrences of `[a, b₁]`, `[a, b₂]`, `[a, b₃]` for three distinct second
characters start at distinct positions, each holding an `a`. -/
theorem three_pairs_le_count (a b₁ b₂ b₃ : Char) (h12 : b₁ ≠ b₂) (h13 : b₁ ≠ b₃)
    (h23 : b₂ ≠ b₃) :
    ∀ l : List Char, countPair a b₁ l + countPair a b₂ l + countPair a b₃ l ≤ l.count a
  | [] => by simp [countPair]
  | [c] => by simp [countPair]
  | x :: y :: t => by
      have ih := three_pairs_le_count a b₁ b₂ b₃ h12 h13 h23 (y :: t)
      have hcnt : (x :: y :: t).count a = (if x = a then 1 else 0) + (y :: t).count a := by
        by_cases hx : x = a
        · subst hx
          simp [List.count_cons_self]
          omega
        · simp [List.count_cons_of_ne (fun h => hx h.symm), hx]
      have hind : (if x = a ∧ y = b₁ then 1 else 0) + (if x = a ∧ y = b₂ then 1 else 0)
          + (if x = a ∧ y = b₃ then 1 else 0) ≤ (if x = a then 1 else 0) := by
        by_cases hx : x = a <;> by_cases h1 : y = b₁ <;> by_cases h2 : y = b₂ <;>
          by_cases h3 : y = b₃ <;> simp_all
      rw [countPair_cons_cons a b₁, countPair_cons_cons a b₂, countPair_cons_cons a b₃, hcnt]
      omega

/-- The statement splits into the selector-dependent front and the
selector-independent tail. -/
theorem buildQuery_data_split (cfg : SearchConfig) (n : Int) :
    (buildQuery cfg n).data =
      (buildFront cfg n).data
        ++ tailChars cfg.q cfg.unexpiredOnly cfg.deduplicate cfg.uniq cfg.srt := by
  unfold buildQuery tailChars
  by_cases h1 : cfg.q != "" <;> by_cases h2 : cfg.unexpiredOnly <;>
    by_cases h3 : cfg.deduplicate <;> by_cases h4 : cfg.uniq <;> by_cases h5 : cfg.srt <;>
    simp [h1, h2, h3, h4, h5, String.data_append, List.append_assoc]

/-- The front of the statement contains no dollar sign at all: its only
variable pieces are the validated OID (digits and dots) and the rendered
`sanTypeNum` (one of `-1`, `1`, `2`, `7`). -/
theorem buildFront_dollar_count (cfg : SearchConfig) (n : Int)
    (hst : cfg.subjectType = "NONE" ∨ cfg.subjectType = "ANY"
             ∨ oidMatch cfg.subjectType.data = true)
    (hn : n = -1 ∨ n = 1 ∨ n = 2 ∨ n = 7) :
    (buildFront cfg n).data.count '$' = 0 := by
  have hoid : cfg.subjectType.data.count '$' = 0 := by
    rcases hst with h | h | h
    · rw [h]; decide
    · rw [h]; decide
    · refine List.count_eq_zero.mpr (fun hc => ?_)
      have h2 := oidMatch_chars _ h '$' hc
      exact absurd h2 (by decide)
  have hts : (toString n).data.count '$' = 0 := by
    rcases hn with rfl | rfl | rfl | rfl <;> decide
  unfold buildFront
  by_cases h1 : cfg.subjectType != "NONE" <;> by_cases h2 : cfg.subjectType != "ANY" <;>
    by_cases h3 : cfg.sanType != "NONE" <;> by_cases h4 : cfg.sanType != "ANY" <;>
    simp [h1, h2, h3, h4, String.data_append, List.count_append, hoid, hts] <;> decide

set_option maxHeartbeats 1000000 in
/-- Exact characterization of the inputs the validation accepts, and of the
`sanTypeNum` it computes. -/
theorem validateInput_ok_iff (q : String) (s e b : Int) (st sa : String) (n : Int) :
    validateInput q s e b st sa = .ok n ↔
      (q ≠ "" ∧ s ≤ e ∧ b ≤ 100000 ∧ ¬(st = "NONE" ∧ sa = "NONE") ∧
       (st = "NONE" ∨ st = "ANY" ∨ oidMatch st.data = true) ∧
       ((sa = "NONE" ∧ n = -1) ∨ (sa = "ANY" ∧ n = -1) ∨ (sa = "RFC822NAME" ∧ n = 1) ∨
        (sa = "DNSNAME" ∧ n = 2) ∨ (sa = "IPADDRESS" ∧ n = 7))) := by
  unfold validateInput
  split_ifs with h1 h2 h3 h4 h5 h6 h7 h8 h9 h10
  all_goals
    simp only [beq_iff_eq, Bool.and_eq_true, Bool.not_eq_true', Bool.or_eq_false_iff,
      Bool.or_eq_true, beq_eq_false_iff_ne, ne_eq, not_lt] at *
  all_goals try simp_all
  all_goals constructor
  all_goals intro hh
  all_goals
    first
      | exact ⟨by tauto, hh.symm⟩
      | exact hh.2.symm

/-- The three positional parameters occur exactly once each in the statement
built for any validated configuration. -/
theorem buildQuery_param_counts (cfg : SearchConfig) (n : Int)
    (hq : cfg.q ≠ "")
    (hst : cfg.subjectType = "NONE" ∨ cfg.subjectType = "ANY"
             ∨ oidMatch cfg.subjectType.data = true)
    (hn : n = -1 ∨ n = 1 ∨ n = 2 ∨ n = 7) :
    countPair '$' '1' (buildQuery cfg n).data = 1
      ∧ countPair '$' '2' (buildQuery cfg n).data = 1
      ∧ countPair '$' '3' (buildQuery cfg n).data = 1 := by
  have hsplit := buildQuery_data_split cfg n
  have hcount : (buildQuery cfg n).data.count '$' = 3 := by
    rw [hsplit, List.count_append, buildFront_dollar_count cfg n hst hn,
      tailChars_dollar_count _ _ _ _ _ hq]
  have h1ge : 1 ≤ countPair '$' '1' (buildQuery cfg n).data := by
    rw [hsplit]
    rw [← tailChars_count_one cfg.q cfg.unexpiredOnly cfg.deduplicate cfg.uniq cfg.srt hq]
    exact countPair_le_append_right _ _ _ _
  have h2ge : 1 ≤ countPair '$' '2' (buildQuery cfg n).data := by
    rw [hsplit]
    rw [← tailChars_count_two cfg.q cfg.unexpiredOnly cfg.deduplicate cfg.uniq cfg.srt hq]
    exact countPair_le_append_right _ _ _ _
  have h3ge : 1 ≤ countPair '$' '3' (buildQuery cfg n).data := by
    rw [hsplit]
    rw [← tailChars_count_three cfg.q cfg.unexpiredOnly cfg.deduplicate cfg.uniq cfg.srt hq]
    exact countPair_le_append_right _ _ _ _
  have hsum := three_pairs_le_count '$' '1' '2' '3' (by decide) (by decide) (by decide)
    (buildQuery cfg n).data
  rw [hcount] at hsum
  exact ⟨by omega, by omega, by omega⟩

/-- The built statement does not depend on the search pattern (beyond its
non-emptiness, which validation guarantees): the pattern text itself never
reaches the statement. -/
theorem buildQuery_pattern_free (cfg : SearchConfig) (n : Int) (p : String)
    (hq : cfg.q ≠ "") (hp : p ≠ "") :
    buildQuery { cfg with q := p } n = buildQuery cfg n := by
  unfold buildQuery buildFront
  simp [bne_iff_ne, hq, hp]

/-! ## Idempotence of the uppercasing step -/

theorem charOfNat_toNat_upper (m : Nat) (h1 : 65 ≤ m) (h2 : m ≤ 90) :
    (Char.ofNat m).toNat = m := by
  interval_cases m <;> decide

theorem goToUpperChar_idem (c : Char) : goToUpperChar (goToUpperChar c) = goToUpperChar c := by
  by_cases h : 97 ≤ c.toNat ∧ c.toNat ≤ 122
  · have e1 : goToUpperChar c = Char.ofNat (c.toNat - 32) := by
      unfold goToUpperChar
      rw [if_pos h]
    have hub : (Char.ofNat (c.toNat - 32)).toNat = c.toNat - 32 :=
      charOfNat_toNat_upper _ (by omega) (by omega)
    have hcond : ¬(97 ≤ (Char.ofNat (c.toNat - 32)).toNat
        ∧ (Char.ofNat (c.toNat - 32)).toNat ≤ 122) := by
      rw [hub]
      omega
    rw [e1]
    unfold goToUpperChar
    rw [if_neg hcond]
  · have e1 : goToUpperChar c = c := by
      unfold goToUpperChar
      rw [if_neg h]
    rw [e1]
    exact e1

theorem goToUpper_idem (s : String) : goToUpper (goToUpper s) = goToUpper s := by
  simp [goToUpper, List.map_map, Function.comp_def, goToUpperChar_idem]

/-! ## Helper lemmas about the scan loop -/

/-- The row loop result counter `n` is never incremented. -/
theorem processRows_count (rows : List MatchRecord) : (processRows rows).2 = 0 := by
  induction rows with
  | nil => rfl
  | cons r t ih => simp [processRows, ih]

theorem processRows_emitted (rows : List MatchRecord) : (processRows rows).1 = rows := by
  induction rows with
  | nil => rfl
  | cons r t ih => simp [processRows, ih]

/-- Throttle behaviour of the range-sizing and fetch stage, assuming the
loop body already reset `sleepFor` to the 15-second polling interval. -/
theorem sizeStep_throttle (cfg : LoopConfig) (st : LoopState) (slept : Int) (dq : Bool)
    (batch : Option (List MatchRecord)) (hsl : st.sleepFor = 15) :
    ((sizeStep cfg st slept dq batch).2.batchQuery.isSome = true →
       (sizeStep cfg st slept dq batch).1.thisBatchSize = cfg.batchSize →
       (sizeStep cfg st slept dq batch).1.sleepFor = 0)
    ∧ ((sizeStep cfg st slept dq batch).2.batchQuery.isSome = true →
       0 < (sizeStep cfg st slept dq batch).1.thisBatchSize →
       (sizeStep cfg st slept dq batch).1.thisBatchSize < cfg.batchSize →
       (sizeStep cfg st slept dq batch).1.sleepFor = 15)
    ∧ ((sizeStep cfg st slept dq batch).2.outcome = IterOutcome.noData →
       (sizeStep cfg st slept dq batch).1.sleepFor = 15
       ∧ (sizeStep cfg st slept dq batch).1.i
           = (sizeStep cfg st slept dq batch).1.maxCertificateID + 1) := by
  unfold sizeStep fetchStep
  dsimp only
  split_ifs with h1 h2 <;> cases batch <;> simp_all <;> omega

/-- Whenever the fetch stage produces a "Batch end" log record, its `count`
field is the untouched counter. -/
theorem sizeStep_batchLog (cfg : LoopConfig) (st : LoopState) (slept : Int) (dq : Bool)
    (batch : Option (List MatchRecord)) (first last count : Int)
    (h : (sizeStep cfg st slept dq batch).2.batchLog = some (first, last, count)) :
    count = 0 := by
  have hn : ∀ r : List MatchRecord, (processRows r).2 = 0 := processRows_count
  unfold sizeStep fetchStep at h
  dsimp only at h
  split_ifs at h <;> cases batch <;> simp_all

/-! ## The claims -/

/-- C1: the claim says that on a failed discovery or batch query the cursor
is not advanced and the failed range is retried, so no ID range is ever
skipped.  The code violates this: `continue` in a Go three-clause `for`
loop still executes the post statement `i += thisBatchSize`.  This run
(startID 1, endID 1000000, batchSize 100, backend max 200) fetches
`[1,100]`, then the batch query for `[101,200]` fails yet the cursor
advances to 201, then the discovery query fails yet the cursor advances by
the stale previous width to 301: the ranges `[101,200]` and `[201,300]`
are skipped forever. -/
theorem claim_C1_failing_run :
    run ⟨1, 1000000, 100⟩ (initState ⟨1, 1000000, 100⟩)
      [Event.step (some 200) (some []), Event.step none none, Event.step none none]
    = ([⟨0, true, some (1, 100), [], some (1, 100, 0), IterOutcome.fetched⟩,
        ⟨0, false, some (101, 200), [], none, IterOutcome.fetchFail⟩,
        ⟨0, true, none, [], none, IterOutcome.discFail⟩],
       ⟨301, 200, 100, 15, 1⟩, RunOutcome.outOfEvents) := by decide

/-- C2: the claim says `startID=100, endID=100, batchSize=100000` gives
exactly one iteration querying `[100,100]`.  In fact the loop condition
`i < endID` is `100 < 100`, false before the first iteration: the run
performs zero iterations, issues no query at all, and completes. -/
theorem claim_C2_counterexample :
    run ⟨100, 100, 100000⟩ (initState ⟨100, 100, 100000⟩) [Event.step (some 1000000) (some [])]
      = ([], initState ⟨100, 100, 100000⟩, RunOutcome.completed)
    ∧ (run ⟨100, 100, 100000⟩ (initState ⟨100, 100, 100000⟩)
        [Event.step (some 1000000) (some [])]).1.length ≠ 1 := by
  constructor <;> decide

/-- C2 (amended): with `startID=100, endID=100, batchSize=100000` the Scan
Loop performs zero iterations — `100 < 100` is already false on the first
comparison — so it terminates immediately in the Completed state and the
range `[100,100]` is never queried, whatever the backend would answer. -/
theorem claim_C2_amended (events : List Event) :
    run ⟨100, 100, 100000⟩ (initState ⟨100, 100, 100000⟩) events
      = ([], initState ⟨100, 100, 100000⟩, RunOutcome.completed) := by
  cases events <;> simp [run, initState]

/-- C3: for every validated configuration the Query Builder is
deterministic (equal configurations give equal statements), the statement
contains exactly one occurrence of each positional parameter `$1`, `$2`,
`$3`, and the statement text is independent of the free-text pattern (the
pattern only ever travels as the bound parameter `$3`). -/
theorem claim_C3 (cfg : SearchConfig) (s e b n : Int)
    (h : validateInput cfg.q s e b cfg.subjectType cfg.sanType = .ok n) :
    (∀ cfg₂ : SearchConfig, cfg₂ = cfg → buildQuery cfg₂ n = buildQuery cfg n)
    ∧ countPair '$' '1' (buildQuery cfg n).data = 1
    ∧ countPair '$' '2' (buildQuery cfg n).data = 1
    ∧ countPair '$' '3' (buildQuery cfg n).data = 1
    ∧ (∀ p : String, p ≠ "" → buildQuery { cfg with q := p } n = buildQuery cfg n) := by
  obtain ⟨hq, -, -, -, hst, hsa⟩ := (validateInput_ok_iff _ _ _ _ _ _ _).mp h
  have hn : n = -1 ∨ n = 1 ∨ n = 2 ∨ n = 7 := by tauto
  have hc := buildQuery_param_counts cfg n hq hst hn
  exact ⟨fun cfg₂ he => he ▸ rfl, hc.1, hc.2.1, hc.2.2,
    fun p hp => buildQuery_pattern_free cfg n p hq hp⟩

/-- C3 (witness): the default configuration (`q="%"`, `subjectType="NONE"`,
`sanType="DNSNAME"`) validates, and its statement carries each parameter
exactly once. -/
theorem claim_C3_witness :
    validateInput "%" (-1) 9223372036854775807 100000 "NONE" "DNSNAME" = .ok 2
    ∧ countPair '$' '1'
        (buildQuery ⟨"%", "NONE", "DNSNAME", false, false, false, false⟩ 2).data = 1
    ∧ countPair '$' '3'
        (buildQuery ⟨"%", "NONE", "DNSNAME", false, false, false, false⟩ 2).data = 1 := by
  have h := claim_C3 ⟨"%", "NONE", "DNSNAME", false, false, false, false⟩
    (-1) 9223372036854775807 100000 2 (by decide)
  exact ⟨by decide, h.2.1, h.2.2.2.1⟩

/-- C4: the claim says the computed batch width is always `>= 1` for
`nextID <= knownMaxID`, and that with `available <= 0` the cursor is left
unchanged.  Both fail on the code: with `batchSize = 0` (validation only
caps `batchSize` from above) the width is `min(0, available) = 0` and a
width-0 query is issued; and with `nextID = 1000`, discovered
`knownMaxID = 500`, the no-data `continue` still executes
`i += thisBatchSize` with `thisBatchSize = -499`, moving the cursor to
501. -/
theorem claim_C4_counterexample :
    (iterate ⟨1, 1000, 0⟩ ⟨1, 5, 0, 0, 1⟩ none none).1.thisBatchSize = 0
    ∧ (iterate ⟨1, 1000, 0⟩ ⟨1, 5, 0, 0, 1⟩ none none).2.batchQuery = some (1, 0)
    ∧ (iterate ⟨1, 100000, 5⟩ ⟨1000, -1, 0, 0, 1000⟩ (some 500) none).2.outcome
        = IterOutcome.noData
    ∧ (iterate ⟨1, 100000, 5⟩ ⟨1000, -1, 0, 0, 1000⟩ (some 500) none).1.i = 501 := by
  refine ⟨by decide, by decide, by decide, by decide⟩

/-- C4 (amended): for every `nextID <= knownMaxID` the computed batch width
equals `min(batchSize, knownMaxID - nextID + 1)`, and it is `>= 1` provided
`batchSize >= 1`; when `batchSize >= 1` and `knownMaxID - nextID + 1 <= 0`
no batch query is issued and the cursor becomes `knownMaxID + 1` (so it is
unchanged exactly when it already was `knownMaxID + 1`). -/
theorem claim_C4_amended (cfg : LoopConfig) (st : LoopState) (slept : Int) (dq : Bool)
    (batch : Option (List MatchRecord)) :
    (st.i ≤ st.maxCertificateID →
       (sizeStep cfg st slept dq batch).1.thisBatchSize
         = min cfg.batchSize (st.maxCertificateID - st.i + 1)
       ∧ (1 ≤ cfg.batchSize → 1 ≤ (sizeStep cfg st slept dq batch).1.thisBatchSize))
    ∧ (1 ≤ cfg.batchSize → st.maxCertificateID - st.i + 1 ≤ 0 →
       (sizeStep cfg st slept dq batch).2.batchQuery = none
       ∧ (sizeStep cfg st slept dq batch).1.i = st.maxCertificateID + 1) := by
  unfold sizeStep fetchStep
  dsimp only
  split_ifs with h1 h2 <;> cases batch <;> simp_all <;> omega

/-- C4 (witness): with `batchSize = 100`, a cursor at 1 and a known max of
50 the width is `min(100, 50) = 50`; with the cursor at 201 and the same
max no query is issued. -/
theorem claim_C4_witness :
    (sizeStep ⟨1, 1000, 100⟩ ⟨1, 50, 0, 15, 1⟩ 0 false (some [])).1.thisBatchSize = 50
    ∧ (sizeStep ⟨1, 1000, 100⟩ ⟨201, 50, 0, 15, 201⟩ 0 false (some [])).2.batchQuery
        = none := by
  have h1 := (claim_C4_amended ⟨1, 1000, 100⟩ ⟨1, 50, 0, 15, 1⟩ 0 false (some [])).1
    (by decide)
  have h2 := (claim_C4_amended ⟨1, 1000, 100⟩ ⟨201, 50, 0, 15, 201⟩ 0 false (some [])).2
    (by decide) (by decide)
  exact ⟨by rw [h1.1]; decide, h2.1⟩

/-- C5: the claim says that after an iteration in which no data is
available the cursor does not move.  It can move: with the cursor at 30
and a discovered maximum of 20, the no-data `continue` still executes
`i += thisBatchSize` with `thisBatchSize = -9`, and the cursor becomes
21. -/
theorem claim_C5_counterexample :
    (iterate ⟨1, 1000, 5⟩ ⟨30, -1, 0, 0, 30⟩ (some 20) none).2.outcome = IterOutcome.noData
    ∧ (iterate ⟨1, 1000, 5⟩ ⟨30, -1, 0, 0, 30⟩ (some 20) none).1.i ≠ 30 := by
  refine ⟨by decide, by decide⟩

/-- C5 (amended): after an iteration whose batch query used the full width
(`thisBatchSize = batchSize`) the next delay is zero; after a batch query
with a partial width (`0 < thisBatchSize < batchSize`) the next delay is
the 15-second polling interval; after a no-data iteration the polling
interval elapses before the retry and the cursor becomes
`knownMaxID + 1` (unchanged exactly when it already was there). -/
theorem claim_C5_amended (cfg : LoopConfig) (st : LoopState) (disc : Option Int)
    (batch : Option (List MatchRecord)) :
    ((iterate cfg st disc batch).2.batchQuery.isSome = true →
       (iterate cfg st disc batch).1.thisBatchSize = cfg.batchSize →
       (iterate cfg st disc batch).1.sleepFor = 0)
    ∧ ((iterate cfg st disc batch).2.batchQuery.isSome = true →
       0 < (iterate cfg st disc batch).1.thisBatchSize →
       (iterate cfg st disc batch).1.thisBatchSize < cfg.batchSize →
       (iterate cfg st disc batch).1.sleepFor = 15)
    ∧ ((iterate cfg st disc batch).2.outcome = IterOutcome.noData →
       (iterate cfg st disc batch).1.sleepFor = 15
       ∧ (iterate cfg st disc batch).1.i
           = (iterate cfg st disc batch).1.maxCertificateID + 1) := by
  unfold iterate
  dsimp only
  by_cases hd : st.maxCertificateID ≤ st.i
  · rw [if_pos hd]
    cases disc with
    | none => simp
    | some m =>
      refine sizeStep_throttle cfg _ _ _ _ ?_
      split_ifs <;> rfl
  · rw [if_neg hd]
    refine sizeStep_throttle cfg _ _ _ _ ?_
    rfl

/-- C5 (witness): a full-width batch is followed by a zero delay, a partial
batch by the 15-second interval, and a no-data iteration leaves the cursor
at `knownMaxID + 1`. -/
theorem claim_C5_witness :
    (iterate ⟨1, 1000000, 100⟩ ⟨1, 200, 0, 15, 1⟩ none (some [])).1.sleepFor = 0
    ∧ (iterate ⟨1, 1000000, 100⟩ ⟨150, 200, 0, 15, 150⟩ none (some [])).1.sleepFor = 15
    ∧ ((iterate ⟨1, 1000000, 100⟩ ⟨30, -1, 0, 0, 30⟩ (some 20) none).1.sleepFor = 15
       ∧ (iterate ⟨1, 1000000, 100⟩ ⟨30, -1, 0, 0, 30⟩ (some 20) none).1.i
           = (iterate ⟨1, 1000000, 100⟩ ⟨30, -1, 0, 0, 30⟩ (some 20) none).1.maxCertificateID
             + 1) := by
  refine ⟨(claim_C5_amended ⟨1, 1000000, 100⟩ ⟨1, 200, 0, 15, 1⟩ none (some [])).1
      (by decide) (by decide),
    (claim_C5_amended ⟨1, 1000000, 100⟩ ⟨150, 200, 0, 15, 150⟩ none (some [])).2.1
      (by decide) (by decide) (by decide),
    (claim_C5_amended ⟨1, 1000000, 100⟩ ⟨30, -1, 0, 0, 30⟩ (some 20) none).2.2 (by decide)⟩

/-- C6: the claim says that with `startID = -1` and a first discovered
maximum of 500, the cursor is initialised to 501 (true) and no batch query
ever covers an ID `<= 500`.  The second part fails on the code: because
`continue` executes `i += thisBatchSize`, a discovery failure arriving
while `thisBatchSize` holds the stale value `-30` (left by a no-data
iteration) rewinds the cursor to 491, after which the batch query
`[491, 500]` is issued — even though every discovery in the trace returned
a value `>= 500`. -/
theorem claim_C6_failing_run :
    (run ⟨-1, 1000000, 10⟩ (initState ⟨-1, 1000000, 10⟩)
        [Event.step (some 500) none]).2.1.i = 501
    ∧ some (491, 500) ∈ (run ⟨-1, 1000000, 10⟩ (initState ⟨-1, 1000000, 10⟩)
        [Event.step (some 500) none, Event.step (some 520) (some []),
         Event.step none (some []), Event.step none none, Event.step none none,
         Event.step none none, Event.step (some 520) none, Event.step none none,
         Event.step (some 520) (some [])]).1.map IterEffects.batchQuery := by
  refine ⟨by decide, by decide⟩

/-- C7: the validation accepts a configuration exactly when the pattern is
non-empty, `startID <= endID`, `batchSize <= 100000`, the selectors are not
both `NONE`, the subject selector is `NONE`, `ANY` or a dotted-decimal OID
matching `^[0-9.]*[0-9]$`, and the SAN selector is one of `NONE`, `ANY`,
`RFC822NAME`, `DNSNAME`, `IPADDRESS`; every configuration violating any of
these checks is rejected fatally before the scan loop starts. -/
theorem claim_C7 (q : String) (s e b : Int) (st sa : String) :
    (validateInput q s e b st sa).accepted = true ↔
      (q ≠ "" ∧ s ≤ e ∧ b ≤ 100000 ∧ ¬(st = "NONE" ∧ sa = "NONE") ∧
       (st = "NONE" ∨ st = "ANY" ∨ oidMatch st.data = true) ∧
       (sa = "NONE" ∨ sa = "ANY" ∨ sa = "RFC822NAME" ∨ sa = "DNSNAME"
         ∨ sa = "IPADDRESS")) := by
  constructor
  · intro ha
    cases hval : validateInput q s e b st sa with
    | fatal m =>
      rw [hval] at ha
      exact absurd ha (by simp [ValidationResult.accepted])
    | ok n =>
      obtain ⟨h1, h2, h3, h4, h5, h6⟩ := (validateInput_ok_iff q s e b st sa n).mp hval
      exact ⟨h1, h2, h3, h4, h5, by tauto⟩
  · rintro ⟨h1, h2, h3, h4, h5, h6⟩
    rcases h6 with h | h | h | h | h
    · rw [(validateInput_ok_iff q s e b st sa (-1)).mpr
        ⟨h1, h2, h3, h4, h5, Or.inl ⟨h, rfl⟩⟩]
      rfl
    · rw [(validateInput_ok_iff q s e b st sa (-1)).mpr
        ⟨h1, h2, h3, h4, h5, Or.inr (Or.inl ⟨h, rfl⟩)⟩]
      rfl
    · rw [(validateInput_ok_iff q s e b st sa 1).mpr
        ⟨h1, h2, h3, h4, h5, Or.inr (Or.inr (Or.inl ⟨h, rfl⟩))⟩]
      rfl
    · rw [(validateInput_ok_iff q s e b st sa 2).mpr
        ⟨h1, h2, h3, h4, h5, Or.inr (Or.inr (Or.inr (Or.inl ⟨h, rfl⟩)))⟩]
      rfl
    · rw [(validateInput_ok_iff q s e b st sa 7).mpr
        ⟨h1, h2, h3, h4, h5, Or.inr (Or.inr (Or.inr (Or.inr ⟨h, rfl⟩)))⟩]
      rfl

/-- C8: for `subjectType = "1.2.3"` and `sanType = "NONE"` the
configuration validates with `sanTypeNum = -1` and the built statement
contains the subject-attribute branch filtered by
`ATTRIBUTE_OID = '1.2.3'`, no `UNION` keyword, and no SAN branch (the
`x509_altnames_raw` expansion never appears). -/
theorem claim_C8 :
    validateInput "%" 1 100 100000 "1.2.3" "NONE" = .ok (-1)
    ∧ strOccurs "WHERE x509_nameattributes_raw.ATTRIBUTE_OID = '1.2.3'"
        (buildQuery ⟨"%", "1.2.3", "NONE", false, false, false, false⟩ (-1)) = true
    ∧ strOccurs "x509_nameattributes_raw"
        (buildQuery ⟨"%", "1.2.3", "NONE", false, false, false, false⟩ (-1)) = true
    ∧ strOccurs "UNION"
        (buildQuery ⟨"%", "1.2.3", "NONE", false, false, false, false⟩ (-1)) = false
    ∧ strOccurs "x509_altnames_raw"
        (buildQuery ⟨"%", "1.2.3", "NONE", false, false, false, false⟩ (-1)) = false := by
  refine ⟨by decide, by decide, by decide, by decide, by decide⟩

/-- C9: whenever an iteration produces a "Batch end" log record, its
`count` field is 0 regardless of how many records the row loop emitted,
because the counter `n` is never incremented inside the row loop. -/
theorem claim_C9 (cfg : LoopConfig) (st : LoopState) (disc : Option Int)
    (rows : List MatchRecord) (first last count : Int)
    (h : (iterate cfg st disc (some rows)).2.batchLog = some (first, last, count)) :
    count = 0 := by
  unfold iterate at h
  dsimp only at h
  by_cases hd : st.maxCertificateID ≤ st.i
  · rw [if_pos hd] at h
    cases disc with
    | none => simp at h
    | some m => exact sizeStep_batchLog cfg _ _ _ _ _ _ _ h
  · rw [if_neg hd] at h
    exact sizeStep_batchLog cfg _ _ _ _ _ _ _ h

/-- C9 (witness): an iteration that emits two records still logs
`count = 0`. -/
theorem claim_C9_witness :
    (0 : Int) = 0
    ∧ (iterate ⟨1, 1000000, 100⟩ ⟨1, 200, 0, 0, 1⟩ none
        (some [⟨5, "a.example.com", 0⟩, ⟨6, "b.example.com", 0⟩])).2.batchLog
      = some (1, 100, 0)
    ∧ (iterate ⟨1, 1000000, 100⟩ ⟨1, 200, 0, 0, 1⟩ none
        (some [⟨5, "a.example.com", 0⟩, ⟨6, "b.example.com", 0⟩])).2.emitted.length
      = 2 := by
  refine ⟨claim_C9 ⟨1, 1000000, 100⟩ ⟨1, 200, 0, 0, 1⟩ none
      [⟨5, "a.example.com", 0⟩, ⟨6, "b.example.com", 0⟩] 1 100 0 (by decide),
    by decide, by decide⟩

/-- C10: `subjectType` and `sanType` are uppercased before validation and
query construction, so the public interface is case-insensitive in the
selectors: the whole pipeline (uppercase, validate, build) gives the same
result for any selector strings as for their uppercased forms. -/
theorem claim_C10 (q : String) (s e b : Int) (st sa : String) (u d g o : Bool) :
    mainPipeline q s e b st sa u d g o
      = mainPipeline q s e b (goToUpper st) (goToUpper sa) u d g o := by
  simp [mainPipeline, goToUpper_idem]
